import Mathlib

/-!
Shallow embedding of the ModernAgro storefront server (server/storage.ts
`MemStorage`, the bundled `DatabaseStorage` in dist/index.js, and the
Express route handlers in server/routes.ts), together with theorems
settling the specification claims about the catalog, order and stats
operations and the admin authentication gate.

Conventions of the embedding:
- JavaScript `Map<number, T>` is modelled as an association list
  `List (Nat × T)` in insertion order; `Map.set` replaces the value in
  place for an existing key and appends otherwise, exactly as JS `Map`
  iteration order behaves.
- `Date` values are modelled as `Nat` epoch timestamps; ambient calls to
  `Date.now()` / `new Date()` become explicit `now` parameters.
- decimal(10,2) SQL values (price, totalAmount, ...) are modelled as `Rat`.
- JS truthiness on nullable fields is modelled explicitly (`jsTruthy...`):
  `undefined`, `null`, `""`, `0` and `false` are falsy.
-/

namespace MA

/-- Truthiness of a JS `string | null | undefined` value. -/
def jsTruthyStr : Option String → Bool
  | some s => s != ""
  | none => false

/-- JS `v || null` on a `string | null | undefined` value. -/
def jsStrOrNull (v : Option String) : Option String :=
  if jsTruthyStr v then v else none

/-- Truthiness of a JS `number | null | undefined` value. -/
def jsTruthyNat : Option Nat → Bool
  | some n => n != 0
  | none => false

/-- JS `v || null` on a `number | null | undefined` value. -/
def jsNatOrNull (v : Option Nat) : Option Nat :=
  if jsTruthyNat v then v else none

/-- Truthiness of a JS `boolean | null | undefined` value. -/
def jsTruthyBool : Option Bool → Bool
  | some b => b
  | none => false

/-- JS `v || null` on a `boolean | null | undefined` value. -/
def jsBoolOrNull (v : Option Bool) : Option Bool :=
  if jsTruthyBool v then v else none

/-- `Map.get`: the value stored at key `k`, if any. -/
def mapGet : List (Nat × α) → Nat → Option α
  | [], _ => none
  | e :: rest, k => if e.1 = k then some e.2 else mapGet rest k

/-- `Map.set`: replace in place when the key exists, append otherwise
(JS `Map` keeps the original insertion position on update). -/
def mapSet : List (Nat × α) → Nat → α → List (Nat × α)
  | [], k, v => [(k, v)]
  | e :: rest, k, v => if e.1 = k then (k, v) :: rest else e :: mapSet rest k v

/-- `Array.from(map.values())` in insertion order. -/
def mapValues (m : List (Nat × α)) : List α := m.map (fun e => e.2)

/-- The comparator `(a, b) => (b.key || 0) - (a.key || 0)`: descending by
`key`, i.e. newest first when `key` is a creation timestamp. -/
abbrev descBy (key : α → Nat) (a b : α) : Prop := key b ≤ key a

instance (key : α → Nat) : IsTotal α (descBy key) :=
  ⟨fun a b => le_total (key b) (key a)⟩

instance (key : α → Nat) : IsTrans α (descBy key) :=
  ⟨fun _ _ _ h1 h2 => Nat.le_trans h2 h1⟩

/-- A row of the `products` table (shared/schema.ts). -/
structure Product where
  id : Nat
  name : String
  description : Option String
  price : Rat
  category : String
  imageUrl : Option String
  stock : Option Int
  isActive : Option Bool
  nutritionalFacts : Option String
  createdAt : Option Nat
  updatedAt : Option Nat
deriving DecidableEq

/-- A row of the `orders` table (shared/schema.ts). -/
structure Order where
  id : Nat
  orderNumber : String
  customerName : String
  customerEmail : Option String
  customerPhone : String
  customerAddress : String
  totalAmount : Rat
  status : Option String
  paymentMethod : Option String
  notes : Option String
  createdAt : Option Nat
  updatedAt : Option Nat
deriving DecidableEq

/-- A row of the `order_items` table (shared/schema.ts). -/
structure OrderItem where
  id : Nat
  orderId : Option Nat
  productId : Option Nat
  quantity : Nat
  pricePerUnit : Rat
  totalPrice : Rat
deriving DecidableEq

/-- A row of the `blog_posts` table (shared/schema.ts); only the fields the
stats aggregation can observe are relevant here. -/
structure BlogPost where
  id : Nat
  title : String
  content : String
  excerpt : Option String
  imageUrl : Option String
  slug : String
  isPublished : Option Bool
  authorId : Option String
  createdAt : Option Nat
  updatedAt : Option Nat
deriving DecidableEq

/-- What `MemStorage.orders` stores per key: the order spread together with
its `items` array (`this.orders.set(id, { ...newOrder, items: orderItems })`). -/
structure OrderWithItems where
  order : Order
  items : List OrderItem
deriving DecidableEq

/-- `insertOrderSchema` payload: an `orders` row minus id, orderNumber and
timestamps (zod `createInsertSchema(orders).omit(...)`). -/
structure InsertOrder where
  customerName : String
  customerEmail : Option String
  customerPhone : String
  customerAddress : String
  totalAmount : Rat
  status : Option String
  paymentMethod : Option String
  notes : Option String
deriving DecidableEq

/-- `insertOrderItemSchema` payload: an `order_items` row minus id. -/
structure InsertOrderItem where
  orderId : Option Nat
  productId : Option Nat
  quantity : Nat
  pricePerUnit : Rat
  totalPrice : Rat
deriving DecidableEq

/-- The mutable state of `MemStorage` (the fields the claims touch). -/
structure MemState where
  products : List (Nat × Product)
  orders : List (Nat × OrderWithItems)
  blogPosts : List (Nat × BlogPost)
  nextProductId : Nat
  nextOrderId : Nat
  nextBlogPostId : Nat
deriving DecidableEq

/-- `p.name.toLowerCase()` as a character list. -/
def lowerStr (s : String) : List Char := s.data.map Char.toLower

/-- `p.name.toLowerCase().includes(search.toLowerCase())`. -/
def nameMatchesSearch (search : String) (p : Product) : Bool :=
  decide (lowerStr search <:+: lowerStr p.name)

/-- `MemStorage.getAllProducts(search?, category?)`: active products,
optionally filtered by case-insensitive name substring and exact category
(skipping the sentinel "All Categories"), sorted newest-created-first. -/
def getAllProducts (st : MemState) (search category : Option String) : List Product :=
  let ps := (mapValues st.products).filter (fun p => jsTruthyBool p.isActive)
  let ps := if jsTruthyStr search then
      ps.filter (nameMatchesSearch (search.getD "")) else ps
  let ps := if jsTruthyStr category && (category.getD "" != "All Categories") then
      ps.filter (fun p => p.category == category.getD "") else ps
  List.insertionSort (descBy (fun p => p.createdAt.getD 0)) ps

/-- `MemStorage.getProduct(id)`. -/
def getProduct (st : MemState) (id : Nat) : Option Product :=
  mapGet st.products id

/-- `MemStorage.deleteProduct(id)`: soft delete, sets `isActive = false` on
the stored product (if present) and writes it back; nothing else changes. -/
def deleteProduct (st : MemState) (id : Nat) : MemState :=
  match mapGet st.products id with
  | some p => { st with products := mapSet st.products id { p with isActive := some false } }
  | none => st

/-- `MemStorage.getAllOrders()`: every stored order (any status), sorted
newest-created-first. -/
def getAllOrders (st : MemState) : List OrderWithItems :=
  List.insertionSort (descBy (fun w => w.order.createdAt.getD 0)) (mapValues st.orders)

/-- `MemStorage.getOrder(id)`. -/
def getOrder (st : MemState) (id : Nat) : Option OrderWithItems :=
  mapGet st.orders id

/-- `MemStorage.createOrder(order, items)`. `now` is `Date.now()` (also used
for the `new Date()` timestamps) and `rand` is `Math.floor(Math.random()*1000)`,
combined into the generated `orderNumber`. Line items get positional ids
`index + 1` and the header plus items are stored by one `Map.set`. -/
def createOrder (st : MemState) (now rand : Nat) (order : InsertOrder)
    (items : List InsertOrderItem) : Order × MemState :=
  let id := st.nextOrderId
  let orderNumber := "ORD-" ++ toString now ++ "-" ++ toString rand
  let newOrder : Order :=
    { id := id
      orderNumber := orderNumber
      customerName := order.customerName
      customerEmail := jsStrOrNull order.customerEmail
      customerPhone := order.customerPhone
      customerAddress := order.customerAddress
      totalAmount := order.totalAmount
      status := jsStrOrNull order.status
      paymentMethod := jsStrOrNull order.paymentMethod
      notes := jsStrOrNull order.notes
      createdAt := some now
      updatedAt := some now }
  let orderItems : List OrderItem := items.enum.map (fun e =>
    { id := e.1 + 1
      orderId := some id
      productId := jsNatOrNull e.2.productId
      quantity := e.2.quantity
      pricePerUnit := e.2.pricePerUnit
      totalPrice := e.2.totalPrice })
  (newOrder,
    { st with
        orders := mapSet st.orders id ⟨newOrder, orderItems⟩
        nextOrderId := id + 1 })

/-- `MemStorage.updateOrderStatus(id, status)`: `none` models the thrown
"Order not found" error; otherwise the stored order's status is replaced by
the given string (no transition check of any kind) and `updatedAt` refreshed. -/
def updateOrderStatus (st : MemState) (now : Nat) (id : Nat) (status : String) :
    Option (Order × MemState) :=
  match mapGet st.orders id with
  | none => none
  | some w =>
    let updatedOrder : Order := { w.order with status := some status, updatedAt := some now }
    some (updatedOrder,
      { st with orders := mapSet st.orders id ⟨updatedOrder, w.items⟩ })

/-- `MemStorage.getAllBlogPosts(published = true)`. -/
def getAllBlogPosts (st : MemState) (published : Bool) : List BlogPost :=
  let posts := mapValues st.blogPosts
  let posts := if published then posts.filter (fun p => jsTruthyBool p.isPublished) else posts
  List.insertionSort (descBy (fun p => p.createdAt.getD 0)) posts

/-- The JSON object computed by the `GET /api/admin/stats` handler. -/
structure Stats where
  totalProducts : Nat
  totalOrders : Nat
  totalRevenue : Rat
  totalBlogPosts : Nat
deriving DecidableEq

/-- The `GET /api/admin/stats` handler body: `storage.getAllProducts()` (no
arguments, so the `isActive` filter applies), `storage.getAllOrders()`,
`storage.getAllBlogPosts(false)`, and
`orders.reduce((sum, order) => sum + parseFloat(order.totalAmount), 0)`. -/
def computeStats (st : MemState) : Stats :=
  let products := getAllProducts st none none
  let orders := getAllOrders st
  let blogPosts := getAllBlogPosts st false
  { totalProducts := products.length
    totalOrders := orders.length
    totalRevenue := orders.foldl (fun sum w => sum + w.order.totalAmount) 0
    totalBlogPosts := blogPosts.length }

/-- The response of the `POST /api/orders` handler. -/
inductive PlaceOrderResult where
  | created (o : Order)
  | invalidOrderData
  | serverError
deriving DecidableEq

/-- The `POST /api/orders` handler body. `insertOrderSchema.parse(order)` and
`z.array(insertOrderItemSchema).parse(items)` only check field shapes, which
the types of `InsertOrder`/`InsertOrderItem` already guarantee; in particular
`z.array` carries no `.nonempty()`/`.min(1)` constraint, so the empty items
list passes validation and `storage.createOrder` runs unconditionally. -/
def placeOrder (st : MemState) (now rand : Nat) (order : InsertOrder)
    (items : List InsertOrderItem) : PlaceOrderResult × MemState :=
  let r := createOrder st now rand order items
  (PlaceOrderResult.created r.1, r.2)

/-- The tables `DatabaseStorage.createOrder` writes (dist/index.js): the SQL
`orders` and `order_items` tables, with their serial id counters. -/
structure DbState where
  orders : List Order
  orderItems : List OrderItem
  nextOrderId : Nat
  nextOrderItemId : Nat
deriving DecidableEq

/-- `DatabaseStorage.createOrder(order, items)` (dist/index.js): two separate
`db.insert` statements with no surrounding transaction — first the order
header (with the generated `orderNumber`), then the line items.
`itemInsertFails` injects a storage-layer failure of the second insert
(`Except.error ()` models the thrown exception); the header insert has then
already been committed and is not rolled back. Column defaults `status =
"pending"` and `paymentMethod = "cash_on_delivery"` apply when the payload
omits them. -/
def dbCreateOrder (st : DbState) (now rand : Nat) (order : InsertOrder)
    (items : List InsertOrderItem) (itemInsertFails : Bool) :
    Except Unit Order × DbState :=
  let orderNumber := "ORD-" ++ toString now ++ "-" ++ toString rand
  let newOrder : Order :=
    { id := st.nextOrderId
      orderNumber := orderNumber
      customerName := order.customerName
      customerEmail := order.customerEmail
      customerPhone := order.customerPhone
      customerAddress := order.customerAddress
      totalAmount := order.totalAmount
      status := some (order.status.getD "pending")
      paymentMethod := some (order.paymentMethod.getD "cash_on_delivery")
      notes := order.notes
      createdAt := some now
      updatedAt := some now }
  let st1 : DbState :=
    { st with orders := st.orders ++ [newOrder], nextOrderId := st.nextOrderId + 1 }
  if itemInsertFails then
    (Except.error (), st1)
  else
    let newItems : List OrderItem := items.enum.map (fun e =>
      { id := st1.nextOrderItemId + e.1
        orderId := some newOrder.id
        productId := e.2.productId
        quantity := e.2.quantity
        pricePerUnit := e.2.pricePerUnit
        totalPrice := e.2.totalPrice })
    (Except.ok newOrder,
      { st1 with
          orderItems := st1.orderItems ++ newItems
          nextOrderItemId := st1.nextOrderItemId + items.length })

/-- `req.user` as populated by the OAuth middleware: token claims subject,
expiry (epoch seconds) and refresh token. -/
structure TokenUser where
  sub : String
  expires_at : Option Nat
  refresh_token : Option String
deriving DecidableEq

/-- The request facts the `isAuthenticated` middleware inspects.
`passportAuthenticated` is `req.isAuthenticated()`, `now` is
`Math.floor(Date.now() / 1000)`, and `refreshSucceeds` is whether
`client.refreshTokenGrant` succeeds for the stored refresh token. -/
structure ReqContext where
  sessionUserId : Option String
  passportAuthenticated : Bool
  user : Option TokenUser
  now : Nat
  refreshSucceeds : Bool
deriving DecidableEq

/-- The `isAuthenticated` middleware (dist/index.js): `true` means the guarded
handler runs (`next()`), `false` is the uniform 401 response. First the
session check (`if (req.session?.userId)`), then the OAuth path: passport
authentication, a truthy `expires_at`, either an unexpired token or a
successful refresh via a truthy `refresh_token`. -/
def isAuthenticated (req : ReqContext) : Bool :=
  if jsTruthyStr req.sessionUserId then true
  else if req.passportAuthenticated = false then false
  else
    match req.user with
    | none => false
    | some u =>
      if jsTruthyNat u.expires_at = false then false
      else if req.now ≤ u.expires_at.getD 0 then true
      else if jsTruthyStr u.refresh_token = false then false
      else req.refreshSucceeds

/-- Modelled from the spec: the spec's words for the admin gate ("a request is
authorized ... if either (a) a server-side session carries a recognized admin
identity, or (b) an externally-issued identity token is present, valid,
unexpired, and belongs to an allow-listed identity"), for comparison with the
source-derived `isAuthenticated`. The allow list in the source is the
`adminUsers` array. -/
def specGateAuthorized (allowList : List String) (req : ReqContext) : Bool :=
  jsTruthyStr req.sessionUserId ||
  (req.passportAuthenticated &&
    match req.user with
    | none => false
    | some u =>
      match u.expires_at with
      | none => false
      | some exp => decide (req.now ≤ exp) && allowList.contains u.sub)

deriving instance DecidableEq for Except

/-- The storage state before any seeding: empty maps, id counters at 1. -/
def emptyState : MemState :=
  { products := [], orders := [], blogPosts := [],
    nextProductId := 1, nextOrderId := 1, nextBlogPostId := 1 }

/-- A concrete active product, used to instantiate the general theorems. -/
def sampleProductActive : Product :=
  { id := 1, name := "Duckling Feed", description := none, price := 7,
    category := "Duck Products", imageUrl := none, stock := some 10,
    isActive := some true, nutritionalFacts := none,
    createdAt := some 100, updatedAt := some 100 }

/-- A concrete soft-deleted product. -/
def sampleProductInactive : Product :=
  { id := 2, name := "Retired Item", description := none, price := 4,
    category := "Duck Products", imageUrl := none, stock := some 0,
    isActive := some false, nutritionalFacts := none,
    createdAt := some 50, updatedAt := some 60 }

/-- A state holding one active and one inactive product. -/
def sampleStateProducts : MemState :=
  { emptyState with
      products := [(1, sampleProductActive), (2, sampleProductInactive)]
      nextProductId := 3 }

/-- A state holding only the inactive product. -/
def stateOnlyInactive : MemState :=
  { emptyState with products := [(2, sampleProductInactive)], nextProductId := 3 }

/-- A concrete order payload. -/
def sampleInsertOrder : InsertOrder :=
  { customerName := "Alice", customerEmail := none, customerPhone := "555-0100",
    customerAddress := "1 Farm Road", totalAmount := 14, status := none,
    paymentMethod := none, notes := none }

/-- A concrete line-item payload. -/
def sampleInsertItem : InsertOrderItem :=
  { orderId := none, productId := some 1, quantity := 2,
    pricePerUnit := 7, totalPrice := 14 }

/-- A concrete stored order with no items. -/
def sampleOrderWithItems : OrderWithItems :=
  { order :=
      { id := 1, orderNumber := "ORD-5-7", customerName := "Alice",
        customerEmail := none, customerPhone := "555-0100",
        customerAddress := "1 Farm Road", totalAmount := 14,
        status := some "pending", paymentMethod := some "cash_on_delivery",
        notes := none, createdAt := some 5, updatedAt := some 5 }
    items := [] }

/-- A state holding one pending order. -/
def sampleStateOrders : MemState :=
  { emptyState with orders := [(1, sampleOrderWithItems)], nextOrderId := 2 }

/-- Empty database tables for the `DatabaseStorage` model. -/
def emptyDbState : DbState :=
  { orders := [], orderItems := [], nextOrderId := 1, nextOrderItemId := 1 }

/-- The allow list hardcoded in the `GET /api/auth/user` handler
(`const adminUsers = ["your-replit-username"]`). -/
def adminUsers : List String := ["your-replit-username"]

/-- A request carrying a valid, unexpired OAuth token for an identity that is
not on the allow list, with no admin session. -/
def cexReq : ReqContext :=
  { sessionUserId := none, passportAuthenticated := true,
    user := some { sub := "eve", expires_at := some 2000, refresh_token := none },
    now := 1000, refreshSucceeds := false }

theorem mapGet_mapSet_self (m : List (Nat × α)) (k : Nat) (v : α) :
    mapGet (mapSet m k v) k = some v := by
  induction m with
  | nil => simp [mapGet, mapSet]
  | cons e rest ih =>
    by_cases h : e.1 = k
    · simp [mapGet, mapSet, h]
    · simp [mapGet, mapSet, h, ih]

theorem mapGet_mapSet_ne (m : List (Nat × α)) {k k' : Nat} (v : α) (h : k' ≠ k) :
    mapGet (mapSet m k' v) k = mapGet m k := by
  induction m with
  | nil => simp [mapGet, mapSet, h]
  | cons e rest ih =>
    by_cases he : e.1 = k'
    · simp [mapGet, mapSet, he, h]
    · simp only [mapSet, if_neg he, mapGet]
      by_cases hk : e.1 = k
      · simp [hk]
      · simp [hk, ih]

theorem jsTruthyBool_eq_true {x : Option Bool} (h : jsTruthyBool x = true) :
    x = some true := by
  cases x with
  | none => simp [jsTruthyBool] at h
  | some b => cases b <;> simp_all [jsTruthyBool]

theorem foldl_add_map (f : α → Rat) (l : List α) (a : Rat) :
    l.foldl (fun sum w => sum + f w) a = a + (l.map f).sum := by
  induction l generalizing a with
  | nil => simp
  | cons x xs ih => simp [ih, add_assoc]

theorem mem_ite_filter {c : Bool} {f : α → Bool} {l : List α} {p : α} :
    p ∈ (if c then l.filter f else l) ↔ p ∈ l ∧ (c = true → f p = true) := by
  cases c <;> simp [List.mem_filter]

theorem mem_getAllProducts {st : MemState} {s c : Option String} {p : Product} :
    p ∈ getAllProducts st s c ↔
      p ∈ mapValues st.products ∧ jsTruthyBool p.isActive = true ∧
      (jsTruthyStr s = true → nameMatchesSearch (s.getD "") p = true) ∧
      ((jsTruthyStr c && (c.getD "" != "All Categories")) = true →
        (p.category == c.getD "") = true) := by
  unfold getAllProducts
  simp only [List.mem_insertionSort, mem_ite_filter, List.mem_filter]
  tauto

theorem searchCond_iff (s : String) (p : Product) :
    ((s != "") = true → nameMatchesSearch s p = true) ↔
      lowerStr s <:+: lowerStr p.name := by
  by_cases h : s = ""
  · subst h
    constructor
    · intro _
      exact List.nil_infix
    · intro _ hx
      simp at hx
  · have hs : (s != "") = true := by simp [bne_iff_ne, h]
    simp [hs, nameMatchesSearch]

theorem lower_empty_iff {s t : String} (h : lowerStr s = lowerStr t) :
    s = "" ↔ t = "" := by
  have hlen : s.data.length = t.data.length := by
    have h2 := congrArg List.length h
    simpa [lowerStr] using h2
  constructor
  · intro hx
    subst hx
    simp at hlen
    obtain ⟨d⟩ := t
    have hd : d = [] := by simpa using hlen.symm
    subst hd
    rfl
  · intro hx
    subst hx
    simp at hlen
    obtain ⟨d⟩ := s
    have hd : d = [] := by simpa using hlen
    subst hd
    rfl

theorem getAllProducts_congr_search {st : MemState} {s t : String} (c : Option String)
    (h : lowerStr s = lowerStr t) :
    getAllProducts st (some s) c = getAllProducts st (some t) c := by
  by_cases hs : s = ""
  · have ht : t = "" := (lower_empty_iff h).mp hs
    rw [hs, ht]
  · have ht : ¬t = "" := fun hx => hs ((lower_empty_iff h).mpr hx)
    have hf : nameMatchesSearch s = nameMatchesSearch t := by
      funext p
      simp [nameMatchesSearch, h]
    have hs' : (s != "") = true := by simp [bne_iff_ne, hs]
    have ht' : (t != "") = true := by simp [bne_iff_ne, ht]
    unfold getAllProducts
    simp only [jsTruthyStr, Option.getD_some, hs', ht', if_true, hf]

theorem enumFrom_map_add_one (n : Nat) (l : List α) :
    (List.enumFrom n l).map (fun e => e.1 + 1) = List.range' (n + 1) l.length := by
  induction l generalizing n with
  | nil => rfl
  | cons x xs ih => simp [List.enumFrom, List.range', ih]

theorem createOrder_orders_eq (st : MemState) (now rand : Nat) (o : InsertOrder)
    (items : List InsertOrderItem) :
    ∃ w : OrderWithItems,
      (createOrder st now rand o items).2.orders = mapSet st.orders st.nextOrderId w ∧
      w.items.map (fun it => it.id) = List.range' 1 items.length := by
  refine ⟨_, rfl, ?_⟩
  rw [List.map_map]
  exact enumFrom_map_add_one 0 items

/-- C1 (counterexample): the claim that `stats.totalProducts` counts all
product rows including inactive ones fails: on a storage state holding one
product with `isActive = false`, the stats handler reports 0 products while
the store holds 1 row, because it calls `getAllProducts()`, which filters
`isActive = true`. -/
theorem stats_totalProducts_cex :
    (computeStats stateOnlyInactive).totalProducts ≠
      (mapValues stateOnlyInactive.products).length ∧
    (computeStats stateOnlyInactive).totalProducts = 0 ∧
    (mapValues stateOnlyInactive.products).length = 1 := by
  decide

/-- C1 (amended): `stats.totalProducts` counts exactly the products whose
`isActive` flag is truthy — inactive products are excluded, for every
storage state. -/
theorem stats_totalProducts_counts_only_active (st : MemState) :
    (computeStats st).totalProducts =
      ((mapValues st.products).filter (fun p => jsTruthyBool p.isActive)).length := by
  show (getAllProducts st none none).length = _
  unfold getAllProducts
  simp [List.length_insertionSort, jsTruthyStr]

/-- C5: `stats.totalRevenue` equals the sum of `totalAmount` over every
order row in storage, with no status filter (cancelled orders included). -/
theorem stats_totalRevenue_sums_all_orders (st : MemState) :
    (computeStats st).totalRevenue =
      ((mapValues st.orders).map (fun w => w.order.totalAmount)).sum := by
  have h2 : (computeStats st).totalRevenue =
      ((getAllOrders st).map (fun w => w.order.totalAmount)).sum := by
    show (getAllOrders st).foldl (fun sum w => sum + w.order.totalAmount) 0 = _
    rw [foldl_add_map]
    simp
  rw [h2]
  exact ((List.perm_insertionSort _ _).map _).sum_eq

/-- C2 (counterexample): placing an order with an empty items array is not
rejected as a validation error — the handler returns a created order and one
order row is persisted. -/
theorem placeOrder_empty_items_cex :
    (placeOrder emptyState 5 7 sampleInsertOrder []).1 ≠ PlaceOrderResult.invalidOrderData ∧
    (placeOrder emptyState 5 7 sampleInsertOrder []).2.orders.length = 1 := by
  decide

/-- C2 (amended): for every state and every order payload, `placeOrder` with
an empty items array succeeds (the zod array schema has no non-emptiness
check) and persists the order header with an empty items list under the next
order id. -/
theorem placeOrder_empty_items_persists_header (st : MemState) (now rand : Nat)
    (order : InsertOrder) :
    ∃ o st', placeOrder st now rand order [] = (PlaceOrderResult.created o, st') ∧
      mapGet st'.orders st.nextOrderId = some ⟨o, []⟩ := by
  refine ⟨_, _, rfl, ?_⟩
  exact mapGet_mapSet_self _ _ _

/-- C3 (counterexample): `DatabaseStorage.createOrder` is not atomic. On the
empty database, creating an order with one line item whose item insert fails
leaves the order header committed (1 order row) with no item rows — the
storage state is changed but the order is not complete. -/
theorem dbCreateOrder_atomicity_cex :
    (dbCreateOrder emptyDbState 5 7 sampleInsertOrder [sampleInsertItem] true).1 =
      Except.error () ∧
    (dbCreateOrder emptyDbState 5 7 sampleInsertOrder [sampleInsertItem] true).2.orderItems
      = [] ∧
    (dbCreateOrder emptyDbState 5 7 sampleInsertOrder [sampleInsertItem] true).2.orders.length
      = 1 ∧
    (dbCreateOrder emptyDbState 5 7 sampleInsertOrder [sampleInsertItem] true).2 ≠
      emptyDbState := by
  decide

/-- C3 (amended): in the database-backed storage the order header insert
commits before the line items and is not rolled back — whenever the item
insert fails, the call errors but the final state still contains the new
header appended to the orders table, and no item rows were written. -/
theorem dbCreateOrder_header_persists_on_item_failure (st : DbState) (now rand : Nat)
    (o : InsertOrder) (items : List InsertOrderItem) :
    (dbCreateOrder st now rand o items true).1 = Except.error () ∧
    (dbCreateOrder st now rand o items true).2.orderItems = st.orderItems ∧
    ∃ hdr : Order, (dbCreateOrder st now rand o items true).2.orders = st.orders ++ [hdr] ∧
      hdr.id = st.nextOrderId :=
  ⟨rfl, rfl, _, rfl, rfl⟩

/-- C4 (counterexample): the admin gate authorizes a request that the spec's
rule rejects — a valid, unexpired token belonging to an identity that is not
on the allow list passes `isAuthenticated` (the gate never consults the
allow list). -/
theorem isAuthenticated_allowlist_cex :
    isAuthenticated cexReq = true ∧ specGateAuthorized adminUsers cexReq = false ∧
    ¬(isAuthenticated cexReq = true ↔ specGateAuthorized adminUsers cexReq = true) := by
  decide

/-- C4 (amended): the gate authorizes a request iff the session carries a
truthy `userId` (consulted first), or — failing that — the request is
passport-authenticated with a truthy token expiry and the token is either
unexpired or carries a truthy refresh token whose refresh succeeds. No
allow-list membership is checked by the gate. -/
theorem isAuthenticated_via_session_or_token (req : ReqContext) :
    isAuthenticated req = true ↔
      (jsTruthyStr req.sessionUserId = true ∨
       (req.passportAuthenticated = true ∧ ∃ u, req.user = some u ∧
         jsTruthyNat u.expires_at = true ∧
         (req.now ≤ u.expires_at.getD 0 ∨
           (jsTruthyStr u.refresh_token = true ∧ req.refreshSucceeds = true)))) := by
  obtain ⟨sid, pa, user, n, rs⟩ := req
  simp only [isAuthenticated]
  cases hs : jsTruthyStr sid
  · cases pa
    · simp
    · cases user with
      | none => simp
      | some u =>
        cases he : jsTruthyNat u.expires_at
        · simp [he]
        · by_cases hn : n ≤ u.expires_at.getD 0
          · simp [he, hn]
          · cases hr : jsTruthyStr u.refresh_token
            · simp [he, hn, hr]
            · cases rs <;> simp [he, hn, hr]
  · simp [hs]

/-- C6: every product returned by `getAllProducts` — for any state and any
search/category arguments — has `isActive = true`, and the returned list is
ordered newest-created-first (descending creation timestamp). -/
theorem getAllProducts_active_and_sorted (st : MemState) (s c : Option String)
    (p : Product) (h : p ∈ getAllProducts st s c) :
    p.isActive = some true ∧
    List.Sorted (descBy (fun q => q.createdAt.getD 0)) (getAllProducts st s c) := by
  refine ⟨jsTruthyBool_eq_true (mem_getAllProducts.mp h).2.1, ?_⟩
  unfold getAllProducts
  exact List.sorted_insertionSort _ _

/-- C6 witness at a concrete state holding an active and an inactive product. -/
theorem getAllProducts_active_and_sorted_witness :
    sampleProductActive.isActive = some true ∧
    List.Sorted (descBy (fun q => q.createdAt.getD 0))
      (getAllProducts sampleStateProducts none none) :=
  getAllProducts_active_and_sorted sampleStateProducts none none sampleProductActive
    (by decide)

/-- C7: the search filter is a case-insensitive substring match on the name:
a product is returned exactly when it is stored, active, and the lowercased
search string is a sublist (infix) of its lowercased name; moreover two
search strings that agree up to letter case return identical lists. -/
theorem getAllProducts_search_case_insensitive (st : MemState) (s t : String)
    (c : Option String) (p : Product) (h : lowerStr s = lowerStr t) :
    (p ∈ getAllProducts st (some s) none ↔
      (p ∈ mapValues st.products ∧ p.isActive = some true ∧
        lowerStr s <:+: lowerStr p.name)) ∧
    getAllProducts st (some s) c = getAllProducts st (some t) c := by
  refine ⟨?_, getAllProducts_congr_search c h⟩
  rw [mem_getAllProducts]
  constructor
  · rintro ⟨h1, h2, h3, -⟩
    refine ⟨h1, jsTruthyBool_eq_true h2, ?_⟩
    have := (searchCond_iff s p).mp
    simp only [jsTruthyStr, Option.getD_some] at h3
    exact this h3
  · rintro ⟨h1, h2, h3⟩
    refine ⟨h1, by simp [h2, jsTruthyBool], ?_, by simp [jsTruthyStr]⟩
    simp only [jsTruthyStr, Option.getD_some]
    exact (searchCond_iff s p).mpr h3

/-- C7 witness: searching "DUCK" and "duck" behave identically on a concrete
state, and membership for the uppercase search is characterized as claimed. -/
theorem getAllProducts_search_case_insensitive_witness :
    (sampleProductActive ∈ getAllProducts sampleStateProducts (some "DUCK") none ↔
      (sampleProductActive ∈ mapValues sampleStateProducts.products ∧
        sampleProductActive.isActive = some true ∧
        lowerStr "DUCK" <:+: lowerStr sampleProductActive.name)) ∧
    getAllProducts sampleStateProducts (some "DUCK") (some "Duck Products") =
      getAllProducts sampleStateProducts (some "duck") (some "Duck Products") :=
  getAllProducts_search_case_insensitive sampleStateProducts "DUCK" "duck"
    (some "Duck Products") sampleProductActive (by decide)

/-- C8: deactivating an existing product sets exactly its `isActive` field to
`false` (all other fields unchanged, as the record update shows); afterwards
the direct fetch still returns the soft-deleted product while the public
listing no longer contains it. -/
theorem deleteProduct_soft_delete (st : MemState) (id : Nat) (p : Product)
    (h : mapGet st.products id = some p) :
    getProduct (deleteProduct st id) id = some { p with isActive := some false } ∧
    { p with isActive := some false } ∉ getAllProducts (deleteProduct st id) none none := by
  constructor
  · unfold getProduct deleteProduct
    rw [h]
    exact mapGet_mapSet_self _ _ _
  · intro hmem
    have h2 := (mem_getAllProducts.mp hmem).2.1
    simp [jsTruthyBool] at h2

/-- C8 witness at a concrete two-product state. -/
theorem deleteProduct_soft_delete_witness :
    getProduct (deleteProduct sampleStateProducts 1) 1 =
      some { sampleProductActive with isActive := some false } ∧
    { sampleProductActive with isActive := some false } ∉
      getAllProducts (deleteProduct sampleStateProducts 1) none none :=
  deleteProduct_soft_delete sampleStateProducts 1 sampleProductActive (by decide)

/-- C9: updating the status of an existing order succeeds for any target
status string — in particular each of the five enum values — regardless of
the current status, and the resulting order carries exactly the given
status. -/
theorem updateOrderStatus_unrestricted (st : MemState) (now id : Nat)
    (w : OrderWithItems) (status : String)
    (h : mapGet st.orders id = some w)
    (_hs : status ∈ ["pending", "processing", "shipped", "delivered", "cancelled"]) :
    ∃ st', updateOrderStatus st now id status =
      some ({ w.order with status := some status, updatedAt := some now }, st') := by
  unfold updateOrderStatus
  rw [h]
  exact ⟨_, rfl⟩

/-- C9 witness: cancelling a pending order at a concrete state. -/
theorem updateOrderStatus_unrestricted_witness :
    ∃ st', updateOrderStatus sampleStateOrders 9 1 "cancelled" =
      some ({ sampleOrderWithItems.order with
                status := some "cancelled", updatedAt := some 9 }, st') :=
  updateOrderStatus_unrestricted sampleStateOrders 9 1 sampleOrderWithItems "cancelled"
    (by decide) (by decide)

/-- C10: the in-memory `createOrder` numbers line items positionally — the
i-th item of every order gets id `i + 1` — so after creating two orders with
non-empty item lists, both stored orders have item id sequences `1, 2, ...`
and in particular both first items carry id 1. -/
theorem createOrder_item_ids_positional (st : MemState) (n1 r1 n2 r2 : Nat)
    (o1 o2 : InsertOrder) (is1 is2 : List InsertOrderItem)
    (h1 : is1 ≠ []) (h2 : is2 ≠ []) :
    ∃ w1 w2 : OrderWithItems,
      mapGet (createOrder (createOrder st n1 r1 o1 is1).2 n2 r2 o2 is2).2.orders
        st.nextOrderId = some w1 ∧
      mapGet (createOrder (createOrder st n1 r1 o1 is1).2 n2 r2 o2 is2).2.orders
        (st.nextOrderId + 1) = some w2 ∧
      w1.items.map (fun it => it.id) = List.range' 1 is1.length ∧
      w2.items.map (fun it => it.id) = List.range' 1 is2.length ∧
      w1.items.head?.map (fun it => it.id) = some 1 ∧
      w2.items.head?.map (fun it => it.id) = some 1 := by
  obtain ⟨w1, he1, hids1⟩ := createOrder_orders_eq st n1 r1 o1 is1
  obtain ⟨w2, he2, hids2⟩ :=
    createOrder_orders_eq (createOrder st n1 r1 o1 is1).2 n2 r2 o2 is2
  have hnext : (createOrder st n1 r1 o1 is1).2.nextOrderId = st.nextOrderId + 1 := rfl
  rw [hnext] at he2
  have horders : (createOrder st n1 r1 o1 is1).2.orders =
      mapSet st.orders st.nextOrderId w1 := he1
  rw [horders] at he2
  refine ⟨w1, w2, ?_, ?_, hids1, hids2, ?_, ?_⟩
  · rw [he2, mapGet_mapSet_ne _ _ (Nat.succ_ne_self st.nextOrderId),
      mapGet_mapSet_self]
  · rw [he2, mapGet_mapSet_self]
  · obtain ⟨a, as, rfl⟩ := List.exists_cons_of_ne_nil h1
    rw [← List.head?_map, hids1]
    rfl
  · obtain ⟨a, as, rfl⟩ := List.exists_cons_of_ne_nil h2
    rw [← List.head?_map, hids2]
    rfl

/-- C10 witness: two concrete orders, with one and two line items. -/
theorem createOrder_item_ids_positional_witness :
    ∃ w1 w2 : OrderWithItems,
      mapGet (createOrder
        (createOrder emptyState 5 7 sampleInsertOrder [sampleInsertItem]).2
        8 9 sampleInsertOrder [sampleInsertItem, sampleInsertItem]).2.orders
        1 = some w1 ∧
      mapGet (createOrder
        (createOrder emptyState 5 7 sampleInsertOrder [sampleInsertItem]).2
        8 9 sampleInsertOrder [sampleInsertItem, sampleInsertItem]).2.orders
        2 = some w2 ∧
      w1.items.map (fun it => it.id) = List.range' 1 1 ∧
      w2.items.map (fun it => it.id) = List.range' 1 2 ∧
      w1.items.head?.map (fun it => it.id) = some 1 ∧
      w2.items.head?.map (fun it => it.id) = some 1 :=
  createOrder_item_ids_positional emptyState 5 7 8 9 sampleInsertOrder sampleInsertOrder
    [sampleInsertItem] [sampleInsertItem, sampleInsertItem] (by decide) (by decide)

end MA
